import Mathlib

/-!
# Verification of the travel-app result reconciliation / normalization layer

A shallow embedding, in Lean 4, of the multi-source result reconciliation and
normalization layer of the travel-planning application:

* the price extractor (`extractPrice`),
* the activity price estimator (`estimateActivityPrice`),
* the multi-tier activity price resolver (`searchActivityPrice` and the batch
  entry point `resolveActivityPrices`),
* the hotel preference parser, filter and normalizer (`parsePreferences`,
  `passesFilters`, `extractHotelInfo`, `extractHotelFromAd`, `processHotels`),
* the flight itinerary normalizer (`processFlightData`).

Modelling conventions, used throughout:

* JavaScript numbers are modelled as `ℚ` (the code never relies on float
  rounding; `Infinity` in the flight sort key is modelled as `⊤ : WithTop ℚ`).
* A field that may be `undefined`/`null` is an `Option`; JavaScript truthiness
  of a value (`0`, `""`, `null`, `undefined` are falsy) is made explicit by the
  `qFalsy`/`strFalsy`/`pvFalsy`/`natFalsy` helpers, and `a || b` by the
  corresponding `jsOr…` helpers.
* JavaScript regular expressions are embedded via a small pattern language
  `Pat` with a backtracking matcher whose candidate order is exactly the JS
  order (leftmost position first; at a position, alternatives in source order,
  greedy repetition longest-first), so `firstMatch` returns the same match and
  captures as JS `String.match`.  `\s` is modelled as space, tab, CR and LF,
  and `toLowerCase` as ASCII lowercasing, which is faithful on the inputs the
  application handles.
* `Array.prototype.sort` (guaranteed stable by the ECMAScript spec; the
  numeric comparators used by the code order by a key, with the `NaN`
  comparator result for two `Infinity` keys treated as equality by the spec's
  `SortCompare`) is modelled by the stable sort `List.insertionSort` with the
  corresponding non-strict key order: a stable sort's output is uniquely
  determined by the comparator and the input order, so any stable sort is a
  faithful model.
* Network effects are made explicit: each external fetch is an input of type
  `Fetch α` (`throw` for a rejected fetch / JSON parse failure, `notOk` for a
  non-2xx response, `ok` for a parsed payload), and the resolver is a pure
  function of those inputs.
-/

/-! ## Characters, whitespace, lowercasing, substrings -/

/-- The characters matched by the regex class `\s` (as used by the source's
patterns; the exotic Unicode space characters never occur in its inputs). -/
def isWsChar (c : Char) : Bool :=
  c == ' ' || c == '\t' || c == '\n' || c == '\r'

/-- ASCII lowercasing of a string to a character list: the model of
JavaScript's `toLowerCase()` on the ASCII inputs the application handles. -/
def lowerData (s : String) : List Char :=
  s.data.map Char.toLower

/-- `needle` occurs as a contiguous substring of `hay`: the model of
JavaScript's `String.prototype.includes`. -/
def containsLC (needle : List Char) : List Char → Bool
  | [] => needle.isEmpty
  | c :: t => needle.isPrefixOf (c :: t) || containsLC needle t

/-! ## A small regex language with JS-faithful matching order

Only the constructs used by the source's patterns are provided.  Capturing is
restricted to what the source reads back out of a match: the digits and
punctuation making up a numeric capture group (`digitC`, `digitsC`, `litC`),
all other constructs capture nothing. -/

/-- Patterns: `eps` (empty), `fail` (never matches), `lit` (literal, not
captured), `litC` (literal, captured), `digitC` (`\d`, captured), `digitsC`
(`\d+`, greedy, captured), `wsStar` (`\s*`), `wsPlus` (`\s+`), `alt`
(alternation, left first), `opt` (`?`, greedy), `star` (`*`, greedy), `seq`
(concatenation). -/
inductive Pat : Type where
  | eps : Pat
  | fail : Pat
  | lit : List Char → Pat
  | litC : List Char → Pat
  | digitC : Pat
  | digitsC : Pat
  | wsStar : Pat
  | wsPlus : Pat
  | alt : Pat → Pat → Pat
  | opt : Pat → Pat
  | star : Pat → Pat
  | seq : Pat → Pat → Pat

/-- Greedy Kleene star, given the matcher `m` of the body: iterate the body as
often as possible (longest first), requiring progress on each iteration, with
the empty iteration as the last candidate.  `fuel` bounds the number of
iterations by the length of the input. -/
def starAux (m : List Char → List (List Char × List Char)) :
    Nat → List Char → List (List Char × List Char)
  | 0, s => [(s, [])]
  | fuel + 1, s =>
      ((m s).filter (fun r => r.1.length < s.length)).flatMap
        (fun r => (starAux m fuel r.1).map (fun r2 => (r2.1, r.2 ++ r2.2)))
      ++ [(s, [])]

/-- All ways a pattern can match a prefix of `s`, as `(rest, captures)` pairs,
in backtracking priority order (first = what JS commits to). -/
def matchPat : Pat → List Char → List (List Char × List Char)
  | .eps, s => [(s, [])]
  | .fail, _ => []
  | .lit l, s => if l.isPrefixOf s then [(s.drop l.length, [])] else []
  | .litC l, s => if l.isPrefixOf s then [(s.drop l.length, l)] else []
  | .digitC, s =>
      match s with
      | [] => []
      | c :: t => if c.isDigit then [(t, [c])] else []
  | .digitsC, s =>
      let n := (s.takeWhile Char.isDigit).length
      (List.range n).map (fun k => (s.drop (n - k), s.take (n - k)))
  | .wsStar, s =>
      let n := (s.takeWhile isWsChar).length
      (List.range (n + 1)).map (fun k => (s.drop (n - k), []))
  | .wsPlus, s =>
      let n := (s.takeWhile isWsChar).length
      (List.range n).map (fun k => (s.drop (n - k), []))
  | .alt p q, s => matchPat p s ++ matchPat q s
  | .opt p, s => matchPat p s ++ [(s, [])]
  | .star p, s => starAux (matchPat p) s.length s
  | .seq p q, s =>
      (matchPat p s).flatMap
        (fun r => (matchPat q r.1).map (fun r2 => (r2.1, r.2 ++ r2.2)))

/-- The captures of the first (leftmost, highest-priority) match of `p` in
`s`, like JS `s.match(p)`: `none` when the pattern matches nowhere. -/
def firstMatch (p : Pat) : List Char → Option (List Char)
  | [] =>
      match (matchPat p []).head? with
      | some r => some r.2
      | none => none
  | c :: t =>
      match (matchPat p (c :: t)).head? with
      | some r => some r.2
      | none => firstMatch p t

/-- The model of JS `pattern.test(s)` / `s.match(pattern) !== null`. -/
def patTest (p : Pat) (s : List Char) : Bool :=
  (firstMatch p s).isSome

/-- Literal pattern from a string literal. -/
def litS (s : String) : Pat := Pat.lit s.data

/-- Captured literal pattern from a string literal. -/
def litCS (s : String) : Pat := Pat.litC s.data

/-- Concatenation of a pattern list. -/
def seqs (l : List Pat) : Pat := l.foldr Pat.seq Pat.eps

/-- Alternation of a pattern list, in priority order. -/
def altsP (l : List Pat) : Pat := l.foldr Pat.alt Pat.fail

/-- A single `\s` character, for the `[\s-]` classes. -/
def wsCharPat : Pat :=
  altsP [Pat.lit [' '], Pat.lit ['\t'], Pat.lit ['\n'], Pat.lit ['\r']]

/-- The optional `[\s-]?` used in the luxury/budget keyword patterns. -/
def wsDashOpt : Pat := Pat.opt (Pat.alt wsCharPat (litS "-"))

/-! ## Numeric parsing of matched substrings -/

/-- Digits to a natural number, the usual positional reading. -/
def digitsToNat (l : List Char) : Nat :=
  l.foldl (fun n c => 10 * n + (c.toNat - 48)) 0

/-- `parseFloat` on the shapes the patterns can produce: an integer part
optionally followed by `.` and a fractional part.  The value `int.frac` is
built as `(int * 10^k + frac) / 10^k` via `mkRat` (the exact decimal value). -/
def parseDecimal (l : List Char) : ℚ :=
  let intPart := l.takeWhile (fun c => c != '.')
  let rest := l.dropWhile (fun c => c != '.')
  match rest with
  | [] => (digitsToNat intPart : ℚ)
  | _ :: frac =>
      mkRat (digitsToNat intPart * 10 ^ frac.length + digitsToNat frac) (10 ^ frac.length)

/-! ## JS truthiness and `||` helpers -/

/-- A possibly-absent string, as a JS condition: falsy iff absent or empty. -/
def strFalsy : Option String → Bool
  | none => true
  | some s => s == ""

/-- A possibly-absent number, as a JS condition: falsy iff absent or zero. -/
def qFalsy : Option ℚ → Bool
  | none => true
  | some q => q == 0

/-- A possibly-absent natural number, as a JS condition. -/
def natFalsy : Option Nat → Bool
  | none => true
  | some n => n == 0

/-- `a || b` on possibly-absent strings. -/
def jsOrStr (a b : Option String) : Option String :=
  if strFalsy a then b else a

/-- `a || d` where the last alternative is a plain string. -/
def jsOrStrD (a : Option String) (d : String) : String :=
  match a with
  | some s => if s == "" then d else s
  | none => d

/-- `a || d` where the last alternative is a plain number. -/
def jsOrQD (a : Option ℚ) (d : ℚ) : ℚ :=
  match a with
  | some q => if q == 0 then d else q
  | none => d

/-- `a || k` resolving into the flight sort-key domain `WithTop ℚ` (where
`⊤` models `Infinity`). -/
def jsOrQW (a : Option ℚ) (k : WithTop ℚ) : WithTop ℚ :=
  match a with
  | some q => if q == 0 then k else (q : WithTop ℚ)
  | none => k

/-! ## The price extractor (`extractPrice`) -/

/-- A JS value that may reach `extractPrice`: a number or a string. -/
inductive PriceVal : Type where
  | num : ℚ → PriceVal
  | str : String → PriceVal
deriving DecidableEq

/-- A possibly-absent `PriceVal`, as a JS condition. -/
def pvFalsy : Option PriceVal → Bool
  | none => true
  | some (.num q) => q == 0
  | some (.str s) => s == ""

/-- `a || b` on possibly-absent price values. -/
def jsOrPV (a b : Option PriceVal) : Option PriceVal :=
  if pvFalsy a then b else a

/-- The regex `(\d+(?:,\d{3})*(?:\.\d{2})?)` of `extractPrice`; every piece of
the numeric capture group is marked captured. -/
def extractPriceNumPat : Pat :=
  seqs [Pat.digitsC,
        Pat.star (seqs [litCS ",", Pat.digitC, Pat.digitC, Pat.digitC]),
        Pat.opt (seqs [litCS ".", Pat.digitC, Pat.digitC])]

/--
```
function extractPrice(priceStr: string | number | undefined): number | null {
  if (typeof priceStr === "number") return priceStr;
  if (!priceStr) return null;
  const match = String(priceStr).match(/(\d+(?:,\d{3})*(?:\.\d{2})?)/);
  if (match) { return parseFloat(match[1].replace(/,/g, "")); }
  return null;
}
```
-/
def extractPrice : Option PriceVal → Option ℚ
  | some (.num q) => some q
  | none => none
  | some (.str s) =>
      if s == "" then none
      else
        match firstMatch extractPriceNumPat s.data with
        | some caps => some (parseDecimal (caps.filter (fun c => c != ',')))
        | none => none


/-! ## The activity price estimator (`estimateActivityPrice`)

One pattern per rule of the source, in source order; the comment above each
pattern definition is the source regex it embeds. -/

/-- `walk|stroll|wander|explore\s+(?:the\s+)?(?:streets?|neighborhood|area)|park|garden|beach|sunset|sunrise|window\s*shop` -/
def freeActivityPat : Pat :=
  altsP [litS "walk", litS "stroll", litS "wander",
         seqs [litS "explore", Pat.wsPlus, Pat.opt (Pat.seq (litS "the") Pat.wsPlus),
               altsP [Pat.seq (litS "street") (Pat.opt (litS "s")),
                      litS "neighborhood", litS "area"]],
         litS "park", litS "garden", litS "beach", litS "sunset", litS "sunrise",
         seqs [litS "window", Pat.wsStar, litS "shop"]]

/-- `museum|gallery|exhibit` -/
def museumPat : Pat := altsP [litS "museum", litS "gallery", litS "exhibit"]

/-- `temple|shrine|church|cathedral` -/
def templePat : Pat := altsP [litS "temple", litS "shrine", litS "church", litS "cathedral"]

/-- `tower|observation|viewpoint|skydeck` -/
def towerPat : Pat := altsP [litS "tower", litS "observation", litS "viewpoint", litS "skydeck"]

/-- `zoo|aquarium` -/
def zooPat : Pat := altsP [litS "zoo", litS "aquarium"]

/-- `theme\s*park|amusement|disney|universal` -/
def themeParkPat : Pat :=
  altsP [seqs [litS "theme", Pat.wsStar, litS "park"],
         litS "amusement", litS "disney", litS "universal"]

/-- `breakfast|brunch` -/
def breakfastPat : Pat := altsP [litS "breakfast", litS "brunch"]

/-- `lunch|cafe|coffee` -/
def lunchPat : Pat := altsP [litS "lunch", litS "cafe", litS "coffee"]

/-- `dinner|restaurant|dining` -/
def dinnerPat : Pat := altsP [litS "dinner", litS "restaurant", litS "dining"]

/-- `street\s*food|market|food\s*stall` -/
def streetFoodPat : Pat :=
  altsP [seqs [litS "street", Pat.wsStar, litS "food"],
         litS "market",
         seqs [litS "food", Pat.wsStar, litS "stall"]]

/-- `fine\s*dining|michelin` -/
def fineDiningPat : Pat :=
  altsP [seqs [litS "fine", Pat.wsStar, litS "dining"], litS "michelin"]

/-- `bar|cocktail|drinks?|nightlife` -/
def barPat : Pat :=
  altsP [litS "bar", litS "cocktail",
         Pat.seq (litS "drink") (Pat.opt (litS "s")), litS "nightlife"]

/-- `tour|guided` -/
def tourPat : Pat := altsP [litS "tour", litS "guided"]

/-- `cooking\s*class|workshop` -/
def cookingClassPat : Pat :=
  altsP [seqs [litS "cooking", Pat.wsStar, litS "class"], litS "workshop"]

/-- `spa|massage|wellness` -/
def spaPat : Pat := altsP [litS "spa", litS "massage", litS "wellness"]

/-- `cruise|boat` -/
def cruisePat : Pat := altsP [litS "cruise", litS "boat"]

/-- `hik(?:e|ing)|trek` -/
def hikePat : Pat :=
  altsP [Pat.seq (litS "hik") (Pat.alt (litS "e") (litS "ing")), litS "trek"]

/-- `bike|cycling|rental` -/
def bikePat : Pat := altsP [litS "bike", litS "cycling", litS "rental"]

/-- `snorkel|dive|diving` -/
def snorkelPat : Pat := altsP [litS "snorkel", litS "dive", litS "diving"]

/-- `surf(?:ing)?|lesson` -/
def surfPat : Pat :=
  altsP [Pat.seq (litS "surf") (Pat.opt (litS "ing")), litS "lesson"]

/-- `shop|shopping|market|mall` -/
def shoppingPat : Pat :=
  altsP [litS "shop", litS "shopping", litS "market", litS "mall"]

/--
`estimateActivityPrice(activity: string): number | null` — the deterministic
keyword-to-price-bucket classifier, an ordered first-match-wins chain of
case-insensitive regex tests over `activity.toLowerCase()`; the shopping rule
returns `null` and anything unmatched returns the default `25`.
-/
def estimateActivityPrice (activity : String) : Option ℚ :=
  let lower := lowerData activity
  if patTest freeActivityPat lower then some 0
  else if patTest museumPat lower then some 25
  else if patTest templePat lower then some 10
  else if patTest towerPat lower then some 35
  else if patTest zooPat lower then some 30
  else if patTest themeParkPat lower then some 100
  else if patTest breakfastPat lower then some 20
  else if patTest lunchPat lower then some 25
  else if patTest dinnerPat lower then some 50
  else if patTest streetFoodPat lower then some 15
  else if patTest fineDiningPat lower then some 150
  else if patTest barPat lower then some 40
  else if patTest tourPat lower then some 45
  else if patTest cookingClassPat lower then some 80
  else if patTest spaPat lower then some 100
  else if patTest cruisePat lower then some 60
  else if patTest hikePat lower then some 0
  else if patTest bikePat lower then some 30
  else if patTest snorkelPat lower then some 80
  else if patTest surfPat lower then some 70
  else if patTest shoppingPat lower then none
  else some 25


/-! ## The multi-tier activity price resolver (`searchActivityPrice`)

The resolver is defined over an explicit environment recording the outcome of
its two network calls (the general search and the shopping search).  Each
tier of the source is one function on the resolver's mutable-variable state,
applied in source order. -/

/-- The outcome of one `fetch` call: a rejected promise / JSON parse failure
(`throw`, handled by the enclosing `try`), a non-2xx response (`notOk`), or a
parsed payload (`ok`). -/
inductive Fetch (α : Type) : Type where
  | throw : Fetch α
  | notOk : Fetch α
  | ok : α → Fetch α
deriving DecidableEq

/-- `searchData.knowledge_graph` — the fields the resolver reads. -/
structure KnowledgeGraph : Type where
  website : Option String := none
  reservation_link : Option String := none
  directions_link : Option String := none
  title : Option String := none
  description : Option String := none
  rating : Option ℚ := none
  reviews : Option ℚ := none
  price : Option PriceVal := none
deriving DecidableEq

/-- One entry of `searchData.local_results.places`; `links_website` stands for
the nested `place.links?.website`. -/
structure LocalPlace : Type where
  links_website : Option String := none
  link : Option String := none
  title : Option String := none
  rating : Option ℚ := none
  reviews : Option ℚ := none
  thumbnail : Option String := none
  price : Option PriceVal := none
deriving DecidableEq

/-- One entry of `searchData.organic_results`. -/
structure OrganicResult : Type where
  link : Option String := none
  source : Option String := none
  snippet : Option String := none
deriving DecidableEq

/-- The parsed general-search payload (an absent `local_results.places` or
`organic_results` behaves exactly like an empty array in the source's length
guards, so both are plain lists). -/
structure SearchData : Type where
  knowledge_graph : Option KnowledgeGraph := none
  local_results_places : List LocalPlace := []
  organic_results : List OrganicResult := []
deriving DecidableEq

/-- One entry of `shoppingData.shopping_results`. -/
structure ShoppingResult : Type where
  price : Option PriceVal := none
  extracted_price : Option PriceVal := none
  link : Option String := none
  source : Option String := none
deriving DecidableEq

/-- The parsed shopping-search payload. -/
structure ShoppingData : Type where
  shopping_results : List ShoppingResult := []
deriving DecidableEq

/-- The two network calls a single `searchActivityPrice` run can make. -/
structure ResolverEnv : Type where
  search : Fetch SearchData
  shopping : Fetch ShoppingData
deriving DecidableEq

/-- The symbolic form of the resolver's `priceFormatted` string, one
constructor per template the source builds (`""`, `` `$${p}` ``,
`` `~$${p}` ``, `"Price varies"`, `"Free/Varies"`, and the tier-2 fallback
that re-uses the raw `place.price` value). -/
inductive PriceFmt : Type where
  | emptyStr : PriceFmt
  | dollars : ℚ → PriceFmt
  | approxDollars : ℚ → PriceFmt
  | priceVaries : PriceFmt
  | freeVaries : PriceFmt
  | rawVal : PriceVal → PriceFmt
deriving DecidableEq

/-- The `ActivityPrice` record returned per activity. -/
structure ActivityPrice : Type where
  name : String
  searchQuery : String
  price : Option ℚ
  price_formatted : PriceFmt
  source : String
  link : Option String := none
  thumbnail : Option String := none
  rating : Option ℚ := none
  reviews : Option ℚ := none
  description : Option String := none
deriving DecidableEq

/-- The resolver's local mutable variables, with their initial values. -/
structure ResolverState : Type where
  officialLink : Option String := none
  officialSource : String := "Unknown"
  foundPrice : Option ℚ := none
  priceFormatted : PriceFmt := .emptyStr
  description : Option String := none
  rating : Option ℚ := none
  reviews : Option ℚ := none
  thumbnail : Option String := none
deriving DecidableEq

/-- `extractDomain`: `new URL(url).hostname.replace("www.", "")`, with
`"Unknown"` for an absent/empty URL or a URL the `URL` constructor rejects.
URL parsing is modelled for the `scheme://host[/|?|#|:…]` shapes the
application's providers return: everything between `"://"` and the first of
`/ ? # :` is the hostname (a URL with no `"://"` throws in the constructor),
and `.replace` removes the first occurrence of `"www."`. -/
def extractDomain (url : Option String) : String :=
  match url with
  | none => "Unknown"
  | some u =>
      if u == "" then "Unknown"
      else
        match splitOnInfix u.data "://".data with
        | none => "Unknown"
        | some rest =>
            let host := rest.takeWhile (fun c => !(c == '/' || c == '?' || c == '#' || c == ':'))
            String.mk (replaceFirst host "www.".data)
where
  /-- The suffix of `s` after the first occurrence of `sep`, if any. -/
  splitOnInfix : List Char → List Char → Option (List Char)
    | [], sep => if sep.isEmpty then some [] else none
    | c :: t, sep =>
        if sep.isPrefixOf (c :: t) then some ((c :: t).drop sep.length)
        else splitOnInfix t sep
  /-- Remove the first occurrence of `pre` from `s` (JS `replace(str, "")`). -/
  replaceFirst : List Char → List Char → List Char
    | [], _ => []
    | c :: t, pre =>
        if pre.isPrefixOf (c :: t) then (c :: t).drop pre.length
        else c :: replaceFirst t pre

/-- The aggregator deny-list test of tier 3:
`/tripadvisor|yelp|expedia|booking\.com|viator|getyourguide|klook|timeout|thrillist|eater/i`
on the lower-cased domain. -/
def isAggregatorDomain (domain : List Char) : Bool :=
  ["tripadvisor", "yelp", "expedia", "booking.com", "viator", "getyourguide",
   "klook", "timeout", "thrillist", "eater"].any
    (fun w => containsLC w.data domain)

/-- The number-with-optional-two-decimals group `(\d+(?:\.\d{2})?)` of the
organic-snippet price regex. -/
def snippetAmountPat : Pat :=
  seqs [Pat.digitsC, Pat.opt (seqs [litCS ".", Pat.digitC, Pat.digitC])]

/-- The organic-snippet price regex
`/\$(\d+(?:\.\d{2})?)|(\d+(?:\.\d{2})?)\s*(?:USD|dollars?)/i`. -/
def snippetPricePat : Pat :=
  Pat.alt (Pat.seq (litS "$") snippetAmountPat)
          (seqs [snippetAmountPat, Pat.wsStar,
                 Pat.alt (litS "usd") (Pat.seq (litS "dollar") (Pat.opt (litS "s")))])

/-- The price, if any, mined from one organic result's snippet:
`(result.snippet || "").match(snippetPricePat)` and
`parseFloat(priceMatch[1] || priceMatch[2])` (the captures of whichever
alternative matched are exactly the numeric group). -/
def snippetPrice (snippet : Option String) : Option ℚ :=
  match firstMatch snippetPricePat (lowerData (snippet.getD "")) with
  | some caps => some (parseDecimal caps)
  | none => none

/-- Tier 1 (knowledge graph), the `if (searchData.knowledge_graph)` block. -/
def applyKnowledgeGraph (activity : String) (sd : SearchData) (st : ResolverState) :
    ResolverState :=
  match sd.knowledge_graph with
  | none => st
  | some kg =>
      let st := { st with
        officialLink := jsOrStr kg.website (jsOrStr kg.reservation_link kg.directions_link),
        officialSource := jsOrStrD kg.title activity,
        description := kg.description }
      let st := if qFalsy kg.rating then st else { st with rating := kg.rating }
      let st := if qFalsy kg.reviews then st else { st with reviews := kg.reviews }
      if pvFalsy kg.price then st
      else
        let p := extractPrice kg.price
        { st with
          foundPrice := p,
          priceFormatted := match p with
            | some q => if q == 0 then .priceVaries else .dollars q
            | none => .priceVaries }

/-- Tier 2 (local results), the
`if (!officialLink && searchData.local_results?.places?.length > 0)` block. -/
def applyLocalResults (sd : SearchData) (st : ResolverState) : ResolverState :=
  if !strFalsy st.officialLink then st
  else
    match sd.local_results_places with
    | [] => st
    | place :: _ =>
        let newLink := jsOrStr place.links_website place.link
        let st := { st with
          officialLink := newLink,
          officialSource := jsOrStrD place.title (extractDomain newLink),
          rating := place.rating,
          reviews := place.reviews,
          thumbnail := place.thumbnail }
        if pvFalsy place.price then st
        else
          let p := extractPrice place.price
          { st with
            foundPrice := p,
            priceFormatted := match p with
              | some q => if q == 0 then .rawVal (place.price.getD (.str "")) else .dollars q
              | none => .rawVal (place.price.getD (.str "")) }

/-- Tier 3 (organic results), the
`if (!officialLink && searchData.organic_results?.length > 0)` block: pick the
first non-aggregator result (falling back to the very first result), then scan
all snippets for a price. -/
def applyOrganicResults (sd : SearchData) (st : ResolverState) : ResolverState :=
  if !strFalsy st.officialLink then st
  else
    match sd.organic_results with
    | [] => st
    | first :: _ =>
        let found := sd.organic_results.find? (fun r =>
          !isAggregatorDomain (lowerData (extractDomain r.link)))
        let st :=
          match found with
          | some site =>
              { st with
                officialLink := site.link,
                officialSource := jsOrStrD site.source (extractDomain site.link),
                description := site.snippet }
          | none =>
              { st with
                officialLink := first.link,
                officialSource := jsOrStrD first.source (extractDomain first.link),
                description := first.snippet }
        match (sd.organic_results.map (fun r => snippetPrice r.snippet)).reduceOption.head? with
        | some q => { st with foundPrice := some q, priceFormatted := .dollars q }
        | none => st

/-- Tiers 1–3 in order on a fresh state; a non-2xx search response skips the
whole `if (searchRes.ok)` block (a thrown search fetch is handled by
`searchActivityPrice` itself). -/
def runSearchTiers (activity : String) (search : Fetch SearchData) : ResolverState :=
  match search with
  | .ok sd => applyOrganicResults sd (applyLocalResults sd (applyKnowledgeGraph activity sd {}))
  | _ => {}

/-- Tier 4 (Google Shopping), the body of `if (shoppingRes.ok)` inside
`if (!foundPrice)`. -/
def applyShopping (sh : ShoppingData) (st : ResolverState) : ResolverState :=
  match sh.shopping_results with
  | [] => st
  | r :: _ =>
      match extractPrice (jsOrPV r.price r.extracted_price) with
      | some q =>
          if q == 0 then st
          else
            let st := { st with foundPrice := some q, priceFormatted := .dollars q }
            if strFalsy st.officialLink then
              { st with officialLink := r.link, officialSource := jsOrStrD r.source "Booking" }
            else st
      | none => st

/-- Tier 5 (heuristic estimate), the final `if (!foundPrice)` block. -/
def applyEstimate (activity : String) (st : ResolverState) : ResolverState :=
  if !qFalsy st.foundPrice then st
  else
    let p := estimateActivityPrice activity
    { st with
      foundPrice := p,
      priceFormatted := match p with
        | some q => if q == 0 then .freeVaries else .approxDollars q
        | none => .freeVaries }

/-- The record the resolver returns from its normal (non-catch) exit. -/
def mkActivityRecord (activity destination : String) (st : ResolverState) : ActivityPrice :=
  { name := activity,
    searchQuery := activity ++ " " ++ destination,
    price := st.foundPrice,
    price_formatted := st.priceFormatted,
    source := st.officialSource,
    link := st.officialLink,
    description := st.description,
    rating := st.rating,
    reviews := st.reviews,
    thumbnail := st.thumbnail }

/-- The record the resolver's `catch` block returns: heuristic estimate,
source `"Estimated"`, and no link/metadata. -/
def fallbackRecord (activity destination : String) : ActivityPrice :=
  let p := estimateActivityPrice activity
  { name := activity,
    searchQuery := activity ++ " " ++ destination,
    price := p,
    price_formatted := match p with
      | some q => if q == 0 then .freeVaries else .approxDollars q
      | none => .freeVaries,
    source := "Estimated" }

/--
`searchActivityPrice(activity, destination)` as a pure function of the two
fetch outcomes: tiers 1–3 on the general search, then — only when no truthy
price was found — the shopping lookup, then the estimate fallback; a throw
from either fetch lands in the `catch` block, which returns `fallbackRecord`.
-/
def searchActivityPrice (activity destination : String) (env : ResolverEnv) :
    ActivityPrice :=
  match env.search with
  | .throw => fallbackRecord activity destination
  | search =>
      let st := runSearchTiers activity search
      if qFalsy st.foundPrice then
        match env.shopping with
        | .throw => fallbackRecord activity destination
        | .notOk => mkActivityRecord activity destination (applyEstimate activity st)
        | .ok sh =>
            mkActivityRecord activity destination (applyEstimate activity (applyShopping sh st))
      else mkActivityRecord activity destination (applyEstimate activity st)

/-- The batch entry point (the `POST` handler body): one resolver run per
activity, in order, each with its own network outcomes; `Promise.all` keeps
the input order and the one-to-one correspondence. -/
def resolveActivityPrices (destination : String) (items : List (String × ResolverEnv)) :
    List ActivityPrice :=
  items.map (fun it => searchActivityPrice it.1 destination it.2)

/-! ## Hotel preference parsing (`parsePreferences`) -/

/-- The structured filter derived from the free-text preferences. -/
structure HotelFilters : Type where
  excludeTypes : List String := []
  minStars : Option Nat := none
  maxStars : Option Nat := none
  preferLuxury : Bool := false
  preferBudget : Bool := false
  excludeVacationRentals : Bool := false
deriving DecidableEq

/-- `hostels?|backpackers?` -/
def hostelWordPat : Pat :=
  Pat.alt (Pat.seq (litS "hostel") (Pat.opt (litS "s")))
          (Pat.seq (litS "backpacker") (Pat.opt (litS "s")))

/-- The optional apostrophe `'?` of the `don't` patterns. -/
def aposOpt : Pat := Pat.opt (Pat.lit [Char.ofNat 39])

/-- The exclusion rules, in source order, each a pattern plus the `type`
string its effect is keyed on (`"vacation rental"` sets the vacation-rental
flag, `"budget"` raises the star floor to 3, anything else is appended to
`excludeTypes`). -/
def exclusionPatterns : List (Pat × String) :=
  [ (seqs [litS "no", Pat.wsStar, hostelWordPat], "hostel"),
    (seqs [litS "don", aposOpt, litS "t", Pat.wsStar, litS "want", Pat.wsStar, hostelWordPat],
      "hostel"),
    (seqs [litS "avoid", Pat.wsStar, hostelWordPat], "hostel"),
    (seqs [litS "no", Pat.wsStar, litS "motel", Pat.opt (litS "s")], "motel"),
    (seqs [litS "don", aposOpt, litS "t", Pat.wsStar, litS "want", Pat.wsStar,
           litS "motel", Pat.opt (litS "s")], "motel"),
    (seqs [litS "no", Pat.wsStar, litS "airbnb"], "vacation rental"),
    (seqs [litS "no", Pat.wsStar, litS "vacation", Pat.wsStar, litS "rental",
           Pat.opt (litS "s")], "vacation rental"),
    (seqs [litS "hotel", Pat.opt (litS "s"), Pat.wsStar, litS "only"], "vacation rental"),
    (seqs [litS "no", Pat.wsStar, litS "budget"], "budget"),
    (seqs [litS "no", Pat.wsStar, litS "cheap"], "budget") ]

/-- The `// Detect exclusions` loop. -/
def applyExclusions (lower : List Char) (filters : HotelFilters) : HotelFilters :=
  exclusionPatterns.foldl
    (fun f pt =>
      if patTest pt.1 lower then
        if pt.2 == "vacation rental" then { f with excludeVacationRentals := true }
        else if pt.2 == "budget" then { f with minStars := some 3 }
        else { f with excludeTypes := f.excludeTypes ++ [pt.2] }
      else f)
    filters

/-- Whether a star-bound rule sets only the minimum or an exact match. -/
inductive StarRule : Type where
  | minOnly : StarRule
  | exact : StarRule
deriving DecidableEq

/-- The star-bound rules, in source order:
`(\d)\s*star\s*(or\s*)?(above|higher|\+|minimum|min)`, `at\s*least\s*(\d)\s*star`,
`minimum\s*(\d)\s*star`, `(\d)\+\s*star` (all minimum-setting) and
`only\s*(\d)\s*star` (exact). -/
def starPatterns : List (Pat × StarRule) :=
  [ (seqs [Pat.digitC, Pat.wsStar, litS "star", Pat.wsStar,
           Pat.opt (Pat.seq (litS "or") Pat.wsStar),
           altsP [litS "above", litS "higher", litS "+", litS "minimum", litS "min"]],
      .minOnly),
    (seqs [litS "at", Pat.wsStar, litS "least", Pat.wsStar, Pat.digitC, Pat.wsStar,
           litS "star"], .minOnly),
    (seqs [litS "minimum", Pat.wsStar, Pat.digitC, Pat.wsStar, litS "star"], .minOnly),
    (seqs [Pat.digitC, litS "+", Pat.wsStar, litS "star"], .minOnly),
    (seqs [litS "only", Pat.wsStar, Pat.digitC, Pat.wsStar, litS "star"], .exact) ]

/-- `parseInt(match[1])` for a star-bound rule: the captured digit of the
first match, if the pattern matches at all. -/
def capturedDigit (p : Pat) (lower : List Char) : Option Nat :=
  match firstMatch p lower with
  | some (c :: _) => some (c.toNat - 48)
  | _ => none

/-- The `// Detect star preferences` loop. -/
def applyStarPatterns (lower : List Char) (filters : HotelFilters) : HotelFilters :=
  starPatterns.foldl
    (fun f pk =>
      match capturedDigit pk.1 lower with
      | none => f
      | some stars =>
          match pk.2 with
          | .minOnly => { f with minStars := some stars }
          | .exact => { f with minStars := some stars, maxStars := some stars })
    filters

/-- `luxury|luxurious|high[\s-]?end|5[\s-]?star|five[\s-]?star|upscale|premium` -/
def luxuryPat : Pat :=
  altsP [litS "luxury", litS "luxurious",
         seqs [litS "high", wsDashOpt, litS "end"],
         seqs [litS "5", wsDashOpt, litS "star"],
         seqs [litS "five", wsDashOpt, litS "star"],
         litS "upscale", litS "premium"]

/-- `budget[\s-]?friendly|cheap|affordable|inexpensive|low[\s-]?cost` -/
def budgetPat : Pat :=
  altsP [seqs [litS "budget", wsDashOpt, litS "friendly"],
         litS "cheap", litS "affordable", litS "inexpensive",
         seqs [litS "low", wsDashOpt, litS "cost"]]

/-- The `// Detect luxury preference` block:
`preferLuxury = true` and `if (!filters.minStars || filters.minStars < 4) minStars = 4`. -/
def applyLuxury (lower : List Char) (f : HotelFilters) : HotelFilters :=
  if patTest luxuryPat lower then
    let f := { f with preferLuxury := true }
    if natFalsy f.minStars || decide (f.minStars.getD 0 < 4) then { f with minStars := some 4 }
    else f
  else f

/-- The `// Detect budget preference` block, guarded by `!filters.minStars`. -/
def applyBudget (lower : List Char) (f : HotelFilters) : HotelFilters :=
  if patTest budgetPat lower && natFalsy f.minStars then
    { f with preferBudget := true, maxStars := some 3 }
  else f

/-- `parsePreferences(preferences: string): HotelFilters` — the four rule
blocks in source order over the lower-cased preference text. -/
def parsePreferences (preferences : String) : HotelFilters :=
  let lower := lowerData preferences
  applyBudget lower (applyLuxury lower (applyStarPatterns lower (applyExclusions lower {})))

/-! ## Hotel normalization and filtering (`processHotels`) -/

/-- A `rate_per_night` / `total_rate` object. -/
structure RateInfo : Type where
  lowest : Option String := none
  extracted_lowest : Option ℚ := none
  before_taxes_fees : Option String := none
  extracted_before_taxes_fees : Option ℚ := none
deriving DecidableEq

/-- One entry of a property's `images` array. -/
structure HotelImage : Type where
  thumbnail : Option String := none
  original_image : Option String := none
deriving DecidableEq

/-- A raw provider listing (`data.properties[i]`), the fields the
normalizer reads. -/
structure HotelProperty : Type where
  name : Option String := none
  type : Option String := none
  description : Option String := none
  link : Option String := none
  images : List HotelImage := []
  overall_rating : Option ℚ := none
  reviews : Option ℚ := none
  extracted_hotel_class : Option ℚ := none
  rate_per_night : Option RateInfo := none
  total_rate : Option RateInfo := none
  amenities : List String := []
  property_token : Option String := none
deriving DecidableEq

/-- A raw ad listing (`data.ads[i]`), the flatter shape. -/
structure HotelAd : Type where
  name : Option String := none
  link : Option String := none
  thumbnail : Option String := none
  overall_rating : Option ℚ := none
  reviews : Option ℚ := none
  hotel_class : Option ℚ := none
  extracted_price : Option ℚ := none
  price : Option String := none
  amenities : List String := []
  property_token : Option String := none
deriving DecidableEq

/-- The hotels provider payload. -/
structure HotelsData : Type where
  properties : List HotelProperty := []
  ads : List HotelAd := []
deriving DecidableEq

/-- The normalized `HotelResult` record (the GPS / check-in metadata fields,
pass-through copies in the source, are omitted as no logic reads them). -/
structure HotelResult : Type where
  name : String
  type : String
  description : String := ""
  link : String := ""
  thumbnail : String := ""
  rating : ℚ := 0
  reviews : ℚ := 0
  hotel_class : Option ℚ := none
  price : ℚ := 0
  price_formatted : String := ""
  total_price : Option ℚ := none
  total_price_formatted : Option String := none
  amenities : List String := []
  property_token : Option String := none
deriving DecidableEq

/-- `extractHotelInfo(property)`: `null` for a falsy name, otherwise the
normalized record with the `||`-chains of the source. -/
def extractHotelInfo (property : HotelProperty) : Option HotelResult :=
  match property.name with
  | none => none
  | some nm =>
      if nm == "" then none
      else
        some
          { name := nm,
            type := jsOrStrD property.type "hotel",
            description := jsOrStrD property.description "",
            link := jsOrStrD property.link "",
            thumbnail :=
              match property.images with
              | [] => ""
              | img :: _ => jsOrStrD img.thumbnail (jsOrStrD img.original_image ""),
            rating := jsOrQD property.overall_rating 0,
            reviews := jsOrQD property.reviews 0,
            hotel_class :=
              if qFalsy property.extracted_hotel_class then none
              else property.extracted_hotel_class,
            price :=
              match property.rate_per_night with
              | some r => jsOrQD r.extracted_lowest (jsOrQD r.extracted_before_taxes_fees 0)
              | none => 0,
            price_formatted :=
              match property.rate_per_night with
              | some r => jsOrStrD r.lowest (jsOrStrD r.before_taxes_fees "")
              | none => "",
            total_price :=
              match property.total_rate with
              | some r => if qFalsy r.extracted_lowest then none else r.extracted_lowest
              | none => none,
            total_price_formatted :=
              match property.total_rate with
              | some r => if strFalsy r.lowest then none else r.lowest
              | none => none,
            amenities := property.amenities,
            property_token := property.property_token }

/-- `extractHotelFromAd(ad)`. -/
def extractHotelFromAd (ad : HotelAd) : Option HotelResult :=
  match ad.name with
  | none => none
  | some nm =>
      if nm == "" then none
      else
        some
          { name := nm,
            type := "hotel",
            description := "",
            link := jsOrStrD ad.link "",
            thumbnail := jsOrStrD ad.thumbnail "",
            rating := jsOrQD ad.overall_rating 0,
            reviews := jsOrQD ad.reviews 0,
            hotel_class := if qFalsy ad.hotel_class then none else ad.hotel_class,
            price := jsOrQD ad.extracted_price 0,
            price_formatted := jsOrStrD ad.price "",
            amenities := ad.amenities,
            property_token := ad.property_token }

/-- `passesFilters(hotel, filters)`: name-keyword exclusion (with the hostel
synonyms `backpacker`, `dormitory`, `dorm`), the vacation-rental type check,
the star-bound checks when the listing has a truthy `hotel_class`, and the
luxury-only rejection of unrated listings. -/
def passesFilters (hotel : HotelResult) (filters : HotelFilters) : Bool :=
  let nameLower := lowerData hotel.name
  let typeLower := lowerData hotel.type
  if filters.excludeTypes.any (fun t =>
       containsLC (lowerData t) nameLower ||
       (t == "hostel" &&
         (containsLC "backpacker".data nameLower ||
          containsLC "dormitory".data nameLower ||
          containsLC "dorm".data nameLower)))
  then false
  else if filters.excludeVacationRentals && containsLC "vacation rental".data typeLower then
    false
  else if !qFalsy hotel.hotel_class then
    if !natFalsy filters.minStars &&
        decide (hotel.hotel_class.getD 0 < (filters.minStars.getD 0 : ℚ)) then false
    else if !natFalsy filters.maxStars &&
        decide (((filters.maxStars.getD 0 : ℚ)) < hotel.hotel_class.getD 0) then false
    else true
  else if filters.preferLuxury then false
  else true

/-- The ascending price-per-night order used by `processHotels`' sort. -/
def hotelLE (a b : HotelResult) : Prop := a.price ≤ b.price

instance : DecidableRel hotelLE :=
  fun a b => inferInstanceAs (Decidable (a.price ≤ b.price))

instance : IsTotal HotelResult hotelLE := ⟨fun a b => le_total a.price b.price⟩

instance : IsTrans HotelResult hotelLE := ⟨fun _ _ _ h1 h2 => le_trans h1 h2⟩

/-- `processHotels(data, filters)`: normalize and filter the properties, then
the first three ads, drop non-positive prices, stable-sort ascending by price
and keep the first 10. -/
def processHotels (data : HotelsData) (filters : HotelFilters) : List HotelResult :=
  let fromProps := data.properties.filterMap (fun p =>
    match extractHotelInfo p with
    | some h => if passesFilters h filters then some h else none
    | none => none)
  let fromAds := (data.ads.take 3).filterMap (fun a =>
    match extractHotelFromAd a with
    | some h => if passesFilters h filters then some h else none
    | none => none)
  (List.insertionSort hotelLE ((fromProps ++ fromAds).filter (fun h => decide (0 < h.price)))).take 10

/-! ## The flight itinerary normalizer (`processFlightData`) -/

/-- One entry of `itinerary.pricing_options`: `price_amount` stands for the
access path `po.price?.amount`, `item_url` for `po.items?.[0]?.url` (each
`none` when any link of the chain is absent). -/
structure PricingOption : Type where
  price_amount : Option ℚ := none
  item_url : Option String := none
deriving DecidableEq

/-- A raw itinerary record; `cheapest_price` stands for
`itinerary.cheapest_price?.amount`. -/
structure Itinerary : Type where
  id : String
  leg_ids : List String := []
  cheapest_price : Option ℚ := none
  pricing_options : List PricingOption := []
deriving DecidableEq

/-- A raw leg record. -/
structure FlightLeg : Type where
  id : String
  origin_place_id : String := ""
  destination_place_id : String := ""
  departure : String := ""
  arrival : String := ""
  duration : ℚ := 0
  stop_count : Option ℚ := none
  segment_ids : List String := []
deriving DecidableEq

/-- A raw segment record. -/
structure FlightSegment : Type where
  id : String
  origin_place_id : String := ""
  destination_place_id : String := ""
  departure : String := ""
  arrival : String := ""
  duration : ℚ := 0
  marketing_flight_number : Option String := none
  marketing_carrier_id : String := ""
deriving DecidableEq

/-- A raw place record. -/
structure FlightPlace : Type where
  id : String
  iata : Option String := none
  name : Option String := none
deriving DecidableEq

/-- A raw carrier record. -/
structure FlightCarrier : Type where
  id : String
  name : Option String := none
  iata : Option String := none
deriving DecidableEq

/-- The flights provider payload (ids modelled as strings; `String(x)` on an
id is then the identity). -/
structure FlightData : Type where
  itineraries : List Itinerary := []
  legs : List FlightLeg := []
  segments : List FlightSegment := []
  places : List FlightPlace := []
  carriers : List FlightCarrier := []
deriving DecidableEq

/-- Lookup in a JS `Map` built from an entry list: the *last* entry wins on a
duplicate key, as in `new Map(entries)`. -/
def jsMapGet {α : Type} (entries : List (String × α)) (key : String) : Option α :=
  ((entries.filter (fun e => e.1 == key)).getLast?).map (fun e => e.2)

/-- The `legs` map of `processFlightData`. -/
def legsMap (data : FlightData) : List (String × FlightLeg) :=
  data.legs.map (fun l => (l.id, l))

/-- The `segments` map. -/
def segmentsMap (data : FlightData) : List (String × FlightSegment) :=
  data.segments.map (fun s => (s.id, s))

/-- The `places` map. -/
def placesMap (data : FlightData) : List (String × FlightPlace) :=
  data.places.map (fun p => (p.id, p))

/-- The `carriers` map. -/
def carriersMap (data : FlightData) : List (String × FlightCarrier) :=
  data.carriers.map (fun c => (c.id, c))

/-- `itinerary.pricing_options?.[0]?.price?.amount`. -/
def firstPricingAmount (itin : Itinerary) : Option ℚ :=
  itin.pricing_options.head?.bind (fun po => po.price_amount)

/-- The price-resolution expression of the sort comparator:
`itin.cheapest_price?.amount || itin.pricing_options?.[0]?.price?.amount || Infinity`
(`||` coalesces on falsiness, so an explicit `0` amount falls through; a fully
unresolved price is `Infinity = ⊤`). -/
def resolvedKey (itin : Itinerary) : WithTop ℚ :=
  jsOrQW itin.cheapest_price (jsOrQW (firstPricingAmount itin) ⊤)

/-- The price written into the output record:
`itin.cheapest_price?.amount || itin.pricing_options?.[0]?.price?.amount || 0`. -/
def outPrice (itin : Itinerary) : ℚ :=
  jsOrQD itin.cheapest_price (jsOrQD (firstPricingAmount itin) 0)

/-- A normalized segment (`from`/`to` of the source are `fromCode`/`toCode`,
those names being reserved in Lean). -/
structure SegmentInfo : Type where
  fromCode : String
  toCode : String
  departure : String
  arrival : String
  duration : ℚ
  flightNumber : String
  carrier : String
deriving DecidableEq

/-- A normalized leg.  The source's placeholder branch for an unresolved leg
reference builds `{departure: "", arrival: "", duration: 0, stops: 0,
segments: []}` without `from`/`to`; those two absent properties are modelled
as `""`. -/
structure LegInfo : Type where
  departure : String
  arrival : String
  duration : ℚ
  stops : ℚ
  fromCode : String := ""
  toCode : String := ""
  segments : List SegmentInfo
deriving DecidableEq

/-- A normalized flight (`return` of the source is `returnLeg`, `return`
being reserved in Lean). -/
structure ProcessedFlight : Type where
  id : String
  price : ℚ
  currency : String
  outbound : LegInfo
  returnLeg : LegInfo
  bookingUrl : Option String := none
deriving DecidableEq

/-- The per-segment body of `processLeg`: resolve the segment by id (`null`,
filtered out, when unknown), then its places and carrier with the
`iata || name || String(id)` and `name || iata || ""` fallback chains. -/
def processSegment (data : FlightData) (segId : String) : Option SegmentInfo :=
  match jsMapGet (segmentsMap data) segId with
  | none => none
  | some seg =>
      let fromPlace := jsMapGet (placesMap data) seg.origin_place_id
      let toPlace := jsMapGet (placesMap data) seg.destination_place_id
      let carrier := jsMapGet (carriersMap data) seg.marketing_carrier_id
      some
        { fromCode := jsOrStrD (fromPlace.bind FlightPlace.iata)
            (jsOrStrD (fromPlace.bind FlightPlace.name) seg.origin_place_id),
          toCode := jsOrStrD (toPlace.bind FlightPlace.iata)
            (jsOrStrD (toPlace.bind FlightPlace.name) seg.destination_place_id),
          departure := seg.departure,
          arrival := seg.arrival,
          duration := seg.duration,
          flightNumber := jsOrStrD seg.marketing_flight_number "",
          carrier := jsOrStrD (carrier.bind FlightCarrier.name)
            (jsOrStrD (carrier.bind FlightCarrier.iata) "") }

/-- `processLeg`: the placeholder for a missing leg, otherwise the resolved
segments (unresolved segment ids dropped by `.filter(Boolean)`) and the
leg-level fields. -/
def processLeg (data : FlightData) (legOpt : Option FlightLeg) : LegInfo :=
  match legOpt with
  | none =>
      { departure := "", arrival := "", duration := 0, stops := 0, segments := [] }
  | some leg =>
      { departure := leg.departure,
        arrival := leg.arrival,
        duration := leg.duration,
        stops := jsOrQD leg.stop_count 0,
        fromCode := jsOrStrD ((jsMapGet (placesMap data) leg.origin_place_id).bind
          FlightPlace.iata) leg.origin_place_id,
        toCode := jsOrStrD ((jsMapGet (placesMap data) leg.destination_place_id).bind
          FlightPlace.iata) leg.destination_place_id,
        segments := leg.segment_ids.filterMap (processSegment data) }

/-- The body of the final `.map`: resolve the two legs from
`itinerary.leg_ids`, the booking URL from the first pricing option, and the
output price. -/
def mkProcessedFlight (data : FlightData) (currency : String) (itinerary : Itinerary) :
    ProcessedFlight :=
  { id := itinerary.id,
    price := outPrice itinerary,
    currency := currency,
    outbound := processLeg data ((itinerary.leg_ids.get? 0).bind (jsMapGet (legsMap data))),
    returnLeg := processLeg data ((itinerary.leg_ids.get? 1).bind (jsMapGet (legsMap data))),
    bookingUrl :=
      match itinerary.pricing_options.head?.bind (fun po => po.item_url) with
      | some u => if u == "" then none else some ("https://www.skyscanner.com" ++ u)
      | none => none }

/-- The ascending resolved-price order of the itinerary sort. -/
def itinLE (a b : Itinerary) : Prop := resolvedKey a ≤ resolvedKey b

instance : DecidableRel itinLE :=
  fun a b => inferInstanceAs (Decidable (resolvedKey a ≤ resolvedKey b))

instance : IsTotal Itinerary itinLE := ⟨fun a b => le_total (resolvedKey a) (resolvedKey b)⟩

instance : IsTrans Itinerary itinLE := ⟨fun _ _ _ h1 h2 => le_trans h1 h2⟩

/-- `[...data.itineraries].sort((a, b) => priceA - priceB)`: the stable sort
by resolved price (see the header on modelling `Array.prototype.sort`). -/
def sortedItineraries (data : FlightData) : List Itinerary :=
  List.insertionSort itinLE data.itineraries

/-- `processFlightData(data, searchParams)`: sort ascending by resolved
price, keep the first 10, and flatten each retained itinerary. -/
def processFlightData (data : FlightData) (currency : String) : List ProcessedFlight :=
  ((sortedItineraries data).take 10).map (mkProcessedFlight data currency)

/-! ## Supporting lemmas -/

/-- On a string with no digit characters the numeric pattern of
`extractPrice` (which must start with `\d+`) never matches. -/
theorem firstMatch_extractPriceNumPat_eq_none (l : List Char)
    (h : ∀ c ∈ l, c.isDigit = false) :
    firstMatch extractPriceNumPat l = none := by
  induction l with
  | nil => decide
  | cons c t ih =>
      have hc : c.isDigit = false := h c (List.mem_cons_self c t)
      have hmp : matchPat extractPriceNumPat (c :: t) = [] := by
        simp [extractPriceNumPat, seqs, matchPat, List.takeWhile_cons, hc]
      simp only [firstMatch, hmp, List.head?_nil]
      exact ih (fun x hx => h x (List.mem_cons_of_mem c hx))

/-! ## C9: the price extractor -/

/-- **C9** — Price extraction yields exactly `1234.56` for `"$1,234.56"`,
`1234.56` for `"1234.56"` and `1234` for `"1234"`; yields `null` for any
string containing no digit; and returns a numeric input unchanged. -/
theorem extractPrice_spec (q : ℚ) (s : String)
    (hnd : ∀ c ∈ s.data, c.isDigit = false) :
    extractPrice (some (.str "$1,234.56")) = some (1234.56 : ℚ) ∧
    extractPrice (some (.str "1234.56")) = some (1234.56 : ℚ) ∧
    extractPrice (some (.str "1234")) = some 1234 ∧
    extractPrice (some (.str s)) = none ∧
    extractPrice (some (.num q)) = some q := by
  refine ⟨?_, ?_, by decide, ?_, rfl⟩
  · have h : extractPrice (some (.str "$1,234.56")) = some (mkRat 123456 100) := by decide
    rw [h, Rat.mkRat_eq_div]
    norm_num
  · have h : extractPrice (some (.str "1234.56")) = some (mkRat 123456 100) := by decide
    rw [h, Rat.mkRat_eq_div]
    norm_num
  · by_cases hs : s == ""
    · simp [extractPrice, hs]
    · simp [extractPrice, hs, firstMatch_extractPriceNumPat_eq_none s.data hnd]

/-- **C9** (witness) — the hypotheses of `extractPrice_spec` hold at
`q = 37/2`, `s = "abc"`. -/
theorem extractPrice_spec_witness :
    (∀ c ∈ "abc".data, c.isDigit = false) ∧ extractPrice (some (.str "abc")) = none := by
  refine ⟨by decide, (extractPrice_spec (37 / 2) "abc" (by decide)).2.2.2.1⟩

/-! ## C4: pure-shopping labels in the estimator -/

/-- The estimator rules that precede the shopping rule, in source order. -/
def earlierEstimatorPats : List Pat :=
  [freeActivityPat, museumPat, templePat, towerPat, zooPat, themeParkPat,
   breakfastPat, lunchPat, dinnerPat, streetFoodPat, fineDiningPat, barPat,
   tourPat, cookingClassPat, spaPat, cruisePat, hikePat, bikePat, snorkelPat,
   surfPat]

/-- **C4** (counterexample) — the label `"local market shopping"` matches a
pure-shopping pattern (`shop|shopping|market|mall`), yet the estimator
returns `15`, not `null`: the street-food rule
(`street\s*food|market|food\s*stall`) also contains the keyword `market` and
fires first. -/
theorem estimate_local_market_shopping_counterexample :
    patTest shoppingPat (lowerData "local market shopping") = true ∧
    estimateActivityPrice "local market shopping" = some 15 ∧
    ¬ estimateActivityPrice "local market shopping" = none := by
  exact ⟨by decide, by decide, by decide⟩

/-- **C4** (amended) — an activity label matching the pure-shopping pattern
*and none of the nineteen earlier category rules* is estimated as `null`
(never `0`); `"local market shopping"` is caught earlier by the street-food
rule's `market` keyword and yields `15`. -/
theorem estimate_pure_shopping_null (s : String)
    (hearly : earlierEstimatorPats.all (fun p => !patTest p (lowerData s)) = true)
    (hshop : patTest shoppingPat (lowerData s) = true) :
    estimateActivityPrice s = none ∧
    estimateActivityPrice "local market shopping" = some 15 := by
  refine ⟨?_, by decide⟩
  simp only [earlierEstimatorPats, List.all_cons, List.all_nil, Bool.and_eq_true,
    Bool.not_eq_true'] at hearly
  obtain ⟨h1, h2, h3, h4, h5, h6, h7, h8, h9, h10, h11, h12, h13, h14, h15, h16,
    h17, h18, h19, h20, -⟩ := hearly
  simp [estimateActivityPrice, h1, h2, h3, h4, h5, h6, h7, h8, h9, h10, h11, h12,
    h13, h14, h15, h16, h17, h18, h19, h20, hshop]

/-- **C4** (witness) — the hypotheses of `estimate_pure_shopping_null` hold
at `"souvenir shopping"`, which is estimated as `null`. -/
theorem estimate_pure_shopping_null_witness :
    earlierEstimatorPats.all (fun p => !patTest p (lowerData "souvenir shopping")) = true ∧
    patTest shoppingPat (lowerData "souvenir shopping") = true ∧
    estimateActivityPrice "souvenir shopping" = none := by
  exact ⟨by decide, by decide,
    (estimate_pure_shopping_null "souvenir shopping" (by decide) (by decide)).1⟩

/-! ## Resolver helper lemmas -/

/-- The price the shopping tier would extract from its first listing. -/
def shoppingFirstPrice (sh : ShoppingData) : Option ℚ :=
  match sh.shopping_results with
  | [] => none
  | r :: _ => extractPrice (jsOrPV r.price r.extracted_price)

/-- The returned record's `price` is the state's `foundPrice`. -/
theorem mkActivityRecord_price (a d : String) (st : ResolverState) :
    (mkActivityRecord a d st).price = st.foundPrice := rfl

/-- The returned record's `source` is the state's `officialSource`. -/
theorem mkActivityRecord_source (a d : String) (st : ResolverState) :
    (mkActivityRecord a d st).source = st.officialSource := rfl

/-- A truthy shopping price is written into the state. -/
theorem applyShopping_foundPrice (sh : ShoppingData) (st : ResolverState) (q : ℚ)
    (hq : shoppingFirstPrice sh = some q) (hq0 : q ≠ 0) :
    (applyShopping sh st).foundPrice = some q := by
  unfold shoppingFirstPrice at hq
  unfold applyShopping
  rcases hsh : sh.shopping_results with - | ⟨r, rest⟩
  · rw [hsh] at hq
    simp at hq
  · rw [hsh] at hq
    have hq' : extractPrice (jsOrPV r.price r.extracted_price) = some q := hq
    dsimp only
    rw [hq']
    dsimp only
    rw [if_neg (by simp [hq0])]
    split <;> rfl

/-- A state with a truthy price is unchanged by the estimate fallback. -/
theorem applyEstimate_of_truthy (a : String) (st : ResolverState)
    (h : qFalsy st.foundPrice = false) : applyEstimate a st = st := by
  unfold applyEstimate
  simp [h]

/-- A state with a falsy price gets the heuristic estimate as its price. -/
theorem applyEstimate_foundPrice_of_falsy (a : String) (st : ResolverState)
    (h : qFalsy st.foundPrice = true) :
    (applyEstimate a st).foundPrice = estimateActivityPrice a := by
  unfold applyEstimate
  simp [h]

/-! ## C2: an explicit 0 from tiers 1–3 -/

/-- The C2 scenario's knowledge panel: an authoritative link and an explicit
price of `"0"` ("confirmed free"). -/
def c2kg : KnowledgeGraph :=
  { website := some "https://museum.example", title := some "Museum X",
    price := some (.str "0") }

/-- The C2 general-search payload. -/
def c2search : SearchData := { knowledge_graph := some c2kg }

/-- The C2 shopping payload: one listing priced `"$12"`. -/
def c2shop : ShoppingData :=
  { shopping_results := [{ price := some (.str "$12"),
                           link := some "https://shop.example",
                           source := some "Shop" }] }

/-- The C2 environment with shopping results available. -/
def c2env : ResolverEnv := { search := .ok c2search, shopping := .ok c2shop }

/-- The C2 environment with an empty shopping response. -/
def c2envEmptyShop : ResolverEnv := { search := .ok c2search, shopping := .ok {} }

/-- **C2** (counterexample) — tiers 1–3 resolve an explicit price of `0`
(knowledge-panel price `"0"`), yet the shopping tier *is* attempted and its
`$12` listing replaces the `0`; with an empty shopping response the heuristic
estimate (`25` for a museum) replaces the `0` instead.  The claim that the
`0` suppresses Tier 4 and survives to the result is false. -/
theorem resolver_zero_price_counterexample :
    (runSearchTiers "museum tour" (.ok c2search)).foundPrice = some 0 ∧
    (searchActivityPrice "museum tour" "Paris" c2env).price = some 12 ∧
    (searchActivityPrice "museum tour" "Paris" c2envEmptyShop).price = some 25 := by
  exact ⟨by decide, by decide, by decide⟩

/-- **C2** (amended) — the resolver's price-found checks are falsiness
checks, so an explicit `0` resolved by tiers 1–3 behaves like no price at
all: Tier 4 runs (the result is built from the state after the shopping and
estimate steps), a truthy shopping price replaces the `0`, and with no
shopping results the heuristic estimate replaces it. -/
theorem resolver_zero_price_amended (a d : String) (env : ResolverEnv) (sh : ShoppingData)
    (hok : env.search ≠ .throw)
    (h0 : (runSearchTiers a env.search).foundPrice = some 0)
    (hsh : env.shopping = .ok sh) :
    searchActivityPrice a d env
      = mkActivityRecord a d (applyEstimate a (applyShopping sh (runSearchTiers a env.search))) ∧
    (∀ q : ℚ, shoppingFirstPrice sh = some q → q ≠ 0 →
      (searchActivityPrice a d env).price = some q) ∧
    (sh.shopping_results = [] →
      (searchActivityPrice a d env).price = estimateActivityPrice a) := by
  have hmain : searchActivityPrice a d env
      = mkActivityRecord a d (applyEstimate a (applyShopping sh (runSearchTiers a env.search))) := by
    unfold searchActivityPrice
    match henv : env.search with
    | .throw => exact absurd henv hok
    | .notOk =>
        rw [henv] at h0
        simp [h0, qFalsy, hsh, henv]
    | .ok sd =>
        rw [henv] at h0
        simp [h0, qFalsy, hsh, henv]
  refine ⟨hmain, ?_, ?_⟩
  · intro q hq hq0
    have hfp : (applyShopping sh (runSearchTiers a env.search)).foundPrice = some q :=
      applyShopping_foundPrice sh _ q hq hq0
    have htr : qFalsy (applyShopping sh (runSearchTiers a env.search)).foundPrice = false := by
      rw [hfp]
      simp [qFalsy, hq0]
    rw [hmain, mkActivityRecord_price, applyEstimate_of_truthy _ _ htr, hfp]
  · intro hempty
    have happ : applyShopping sh (runSearchTiers a env.search) = runSearchTiers a env.search := by
      unfold applyShopping
      rw [hempty]
    have hfal : qFalsy (applyShopping sh (runSearchTiers a env.search)).foundPrice = true := by
      rw [happ, h0]
      rfl
    rw [hmain, mkActivityRecord_price, applyEstimate_foundPrice_of_falsy _ _ hfal]

/-- **C2** (witness) — the amended theorem's hypotheses hold at the C2
scenario, where the `$12` shopping price replaces the explicit `0`. -/
theorem resolver_zero_price_amended_witness :
    ((Fetch.ok c2search : Fetch SearchData) ≠ .throw) ∧
    (runSearchTiers "museum tour" (.ok c2search)).foundPrice = some 0 ∧
    (searchActivityPrice "museum tour" "Paris" c2env).price = some 12 := by
  refine ⟨by decide, by decide, ?_⟩
  exact (resolver_zero_price_amended "museum tour" "Paris" c2env c2shop (by decide)
    (by decide) rfl).2.1 12 (by decide) (by decide)

/-! ## C3: the all-aggregator organic fallback -/

/-- A list of all-`none` options reduces to the empty list. -/
theorem reduceOption_eq_nil_of_all_none {α : Type} {l : List (Option α)}
    (h : ∀ x ∈ l, x = none) : l.reduceOption = [] := by
  induction l with
  | nil => rfl
  | cons x t ih =>
      rw [h x (List.mem_cons_self x t), List.reduceOption_cons_of_none]
      exact ih (fun y hy => h y (List.mem_cons_of_mem x hy))

/-- The estimate fallback never changes the source label. -/
theorem applyEstimate_officialSource (a : String) (st : ResolverState) :
    (applyEstimate a st).officialSource = st.officialSource := by
  unfold applyEstimate
  split <;> rfl

/-- The estimate fallback never changes the link. -/
theorem applyEstimate_officialLink (a : String) (st : ResolverState) :
    (applyEstimate a st).officialLink = st.officialLink := by
  unfold applyEstimate
  split <;> rfl

/-- The returned record's `link` is the state's `officialLink`. -/
theorem mkActivityRecord_link (a d : String) (st : ResolverState) :
    (mkActivityRecord a d st).link = st.officialLink := rfl

/-- **C3** (amended) — when the general search yields no knowledge panel, no
local listing, and only aggregator-domain organic results none of whose
snippets carries a price, and the shopping search returns no results, the
resolver returns the heuristic estimate as its price, but the result's source
label is the *first organic result's* source (or its domain), and its link is
that result's link — not the label `"Estimated"`, which the code only
produces on the exception path. -/
theorem resolver_aggregator_fallback (a d : String) (env : ResolverEnv)
    (sd : SearchData) (first : OrganicResult) (rest : List OrganicResult)
    (hs : env.search = .ok sd)
    (hkg : sd.knowledge_graph = none)
    (hloc : sd.local_results_places = [])
    (horg : sd.organic_results = first :: rest)
    (hagg : ∀ r ∈ sd.organic_results,
      isAggregatorDomain (lowerData (extractDomain r.link)) = true)
    (hsnip : ∀ r ∈ sd.organic_results, snippetPrice r.snippet = none)
    (hshop : env.shopping = .ok ⟨[]⟩) :
    (searchActivityPrice a d env).price = estimateActivityPrice a ∧
    (searchActivityPrice a d env).source = jsOrStrD first.source (extractDomain first.link) ∧
    (searchActivityPrice a d env).link = first.link := by
  have hkg1 : applyKnowledgeGraph a sd {} = {} := by
    unfold applyKnowledgeGraph
    rw [hkg]
  have hloc1 : applyLocalResults sd {} = {} := by
    unfold applyLocalResults
    rw [hloc]
    rfl
  have hfind : sd.organic_results.find?
      (fun r => !isAggregatorDomain (lowerData (extractDomain r.link))) = none :=
    List.find?_eq_none.mpr (fun r hr => by simp [hagg r hr])
  have hscan : (sd.organic_results.map (fun r => snippetPrice r.snippet)).reduceOption = [] := by
    refine reduceOption_eq_nil_of_all_none (fun x hx => ?_)
    obtain ⟨r, hr, hxr⟩ := List.mem_map.mp hx
    rw [← hxr]
    exact hsnip r hr
  have horg1 : applyOrganicResults sd {}
      = { officialLink := first.link,
          officialSource := jsOrStrD first.source (extractDomain first.link),
          description := first.snippet } := by
    unfold applyOrganicResults
    rw [horg] at hfind hscan
    rw [horg, hfind, hscan]
    rfl
  have hrun : runSearchTiers a (.ok sd)
      = { officialLink := first.link,
          officialSource := jsOrStrD first.source (extractDomain first.link),
          description := first.snippet } := by
    unfold runSearchTiers
    dsimp only
    rw [hkg1, hloc1, horg1]
  have hrec : searchActivityPrice a d env
      = mkActivityRecord a d (applyEstimate a
          { officialLink := first.link,
            officialSource := jsOrStrD first.source (extractDomain first.link),
            description := first.snippet }) := by
    unfold searchActivityPrice
    rw [hs]
    dsimp only
    rw [hrun, hshop]
    rfl
  refine ⟨?_, ?_, ?_⟩
  · rw [hrec, mkActivityRecord_price, applyEstimate_foundPrice_of_falsy _ _ (by rfl)]
  · rw [hrec, mkActivityRecord_source, applyEstimate_officialSource]
  · rw [hrec, mkActivityRecord_link, applyEstimate_officialLink]

/-- The single organic result of the C3 scenario: an aggregator domain with
no price in its snippet. -/
def c3organic : OrganicResult :=
  { link := some "https://www.tripadvisor.com/speakeasy",
    source := some "Tripadvisor",
    snippet := some "a hidden speakeasy bar in Tokyo worth seeking out" }

/-- The C3 general-search payload: organic results only, all aggregators. -/
def c3search : SearchData := { organic_results := [c3organic] }

/-- The C3 environment: the shopping search returns no results. -/
def c3env : ResolverEnv := { search := .ok c3search, shopping := .ok {} }

/-- **C3** (counterexample) — in the claimed scenario the resolver does
return the bar/nightlife heuristic estimate (`40`, formatted `~$40`), but the
result's source label is `"Tripadvisor"` (the first organic result's source),
not `"Estimated"`. -/
theorem resolver_estimated_label_counterexample :
    (searchActivityPrice "hidden speakeasy bar" "Tokyo" c3env).price = some 40 ∧
    estimateActivityPrice "hidden speakeasy bar" = some 40 ∧
    (searchActivityPrice "hidden speakeasy bar" "Tokyo" c3env).price_formatted
      = .approxDollars 40 ∧
    (searchActivityPrice "hidden speakeasy bar" "Tokyo" c3env).source = "Tripadvisor" ∧
    ¬ (searchActivityPrice "hidden speakeasy bar" "Tokyo" c3env).source = "Estimated" := by
  exact ⟨by decide, by decide, by decide, by decide, by decide⟩

/-- **C3** (witness) — the amended theorem's hypotheses hold at the C3
scenario. -/
theorem resolver_aggregator_fallback_witness :
    (∀ r ∈ c3search.organic_results,
      isAggregatorDomain (lowerData (extractDomain r.link)) = true) ∧
    (∀ r ∈ c3search.organic_results, snippetPrice r.snippet = none) ∧
    (searchActivityPrice "hidden speakeasy bar" "Tokyo" c3env).price
      = estimateActivityPrice "hidden speakeasy bar" := by
  refine ⟨by decide, by decide, ?_⟩
  exact (resolver_aggregator_fallback "hidden speakeasy bar" "Tokyo" c3env c3search
    c3organic [] rfl rfl rfl rfl (by decide) (by decide) rfl).1

/-! ## C5: batch fault isolation -/

/-- **C5** — batch resolution returns exactly one result per input activity,
in input order and one-to-one: the `i`-th result is the resolver's output for
the `i`-th activity, and an activity whose upstream search call throws yields
the heuristic-estimate fallback record instead of propagating the error. -/
theorem resolveActivityPrices_fault_isolated (destination : String)
    (items : List (String × ResolverEnv)) (i : Nat) (a : String) (env : ResolverEnv)
    (hi : items[i]? = some (a, env)) :
    (resolveActivityPrices destination items).length = items.length ∧
    (resolveActivityPrices destination items)[i]?
      = some (searchActivityPrice a destination env) ∧
    (env.search = .throw →
      (resolveActivityPrices destination items)[i]?
        = some (fallbackRecord a destination)) := by
  have hlen : (resolveActivityPrices destination items).length = items.length := by
    simp [resolveActivityPrices]
  have hget : (resolveActivityPrices destination items)[i]?
      = some (searchActivityPrice a destination env) := by
    simp [resolveActivityPrices, List.getElem?_map, hi]
  refine ⟨hlen, hget, fun hthrow => ?_⟩
  rw [hget]
  unfold searchActivityPrice
  rw [hthrow]

/-- The C5 environment whose upstream search call throws. -/
def c5throwEnv : ResolverEnv := { search := .throw, shopping := .notOk }

/-- A C5 environment whose calls succeed with empty payloads. -/
def c5okEnv : ResolverEnv := { search := .ok {}, shopping := .ok {} }

/-- The C5 batch: twelve activities, the seventh of which (index 6) throws. -/
def c5items : List (String × ResolverEnv) :=
  [("city walking tour", c5okEnv), ("museum visit", c5okEnv),
   ("sunset beach walk", c5okEnv), ("street food crawl", c5okEnv),
   ("temple visit", c5okEnv), ("harbor cruise", c5okEnv),
   ("observation tower", c5throwEnv), ("cooking class", c5okEnv),
   ("bike rental", c5okEnv), ("snorkeling trip", c5okEnv),
   ("souvenir shopping", c5okEnv), ("farewell dinner", c5okEnv)]

/-- **C5** (witness) — on the twelve-activity batch with item #7 throwing,
the batch still has twelve results and item #7 is the estimate fallback
(an observation tower estimates to `35`, labelled `"Estimated"`). -/
theorem resolveActivityPrices_fault_isolated_witness :
    c5items[6]? = some ("observation tower", c5throwEnv) ∧
    (resolveActivityPrices "Tokyo" c5items).length = c5items.length ∧
    (resolveActivityPrices "Tokyo" c5items)[6]?
      = some (fallbackRecord "observation tower" "Tokyo") ∧
    (fallbackRecord "observation tower" "Tokyo").price = some 35 ∧
    (fallbackRecord "observation tower" "Tokyo").source = "Estimated" := by
  refine ⟨rfl, ?_, ?_, by decide, rfl⟩
  · exact (resolveActivityPrices_fault_isolated "Tokyo" c5items 6 "observation tower"
      c5throwEnv rfl).1
  · exact (resolveActivityPrices_fault_isolated "Tokyo" c5items 6 "observation tower"
      c5throwEnv rfl).2.2 rfl

/-! ## C6: hotel output invariants -/

/-- **C6** — every hotel surfaced by `processHotels` has a positive price
(zero-priced or price-unresolvable listings are dropped before sorting), the
output is sorted ascending by price-per-night, and it holds at most 10
hotels. -/
theorem processHotels_invariants (data : HotelsData) (filters : HotelFilters)
    (h : HotelResult) (hmem : h ∈ processHotels data filters) :
    0 < h.price ∧
    List.Pairwise hotelLE (processHotels data filters) ∧
    (processHotels data filters).length ≤ 10 := by
  refine ⟨?_, ?_, ?_⟩
  · unfold processHotels at hmem
    have h1 := List.mem_of_mem_take hmem
    have h2 := (List.mem_insertionSort hotelLE).mp h1
    have h3 := (List.mem_filter.mp h2).2
    exact of_decide_eq_true h3
  · unfold processHotels
    exact List.Pairwise.sublist (List.take_sublist _ _)
      (List.sorted_insertionSort hotelLE _)
  · unfold processHotels
    exact List.length_take_le _ _

/-- The C6 witness payload: a 4-star 120-a-night listing, an unrated
80-a-night listing, and a listing with no resolvable rate. -/
def c6data : HotelsData :=
  { properties :=
      [{ name := some "Grand Plaza",
         rate_per_night := some { extracted_lowest := some 120 },
         extracted_hotel_class := some 4 },
       { name := some "Harbor Inn",
         rate_per_night := some { extracted_lowest := some 80 } },
       { name := some "Zero Lodge" }] }

/-- The normalized record `processHotels` produces for the C6 witness's
cheapest listing. -/
def c6harborInn : HotelResult := { name := "Harbor Inn", type := "hotel", price := 80 }

/-- **C6** (witness) — on the C6 payload the zero-priced listing is dropped,
the two priced listings come back cheapest-first, and the membership
hypothesis of `processHotels_invariants` is satisfiable. -/
theorem processHotels_invariants_witness :
    c6harborInn ∈ processHotels c6data {} ∧
    (processHotels c6data {}).map (fun h => h.price) = [80, 120] ∧
    0 < c6harborInn.price := by
  refine ⟨by decide, by decide,
    (processHotels_invariants c6data {} c6harborInn (by decide)).1⟩

/-! ## C7: name-based type exclusion -/

/-- The C7 listing: named like a hostel but carrying a passing star class. -/
def downtownHostel : HotelResult :=
  { name := "Downtown Hostel", type := "hotel", hotel_class := some 4, price := 150 }

/-- The C7 control listing: same star class, unsuspicious name. -/
def downtownPlaza : HotelResult :=
  { name := "Downtown Plaza", type := "hotel", hotel_class := some 4, price := 150 }

/-- **C7** — with `"no hostels, 4 star minimum"`, the parser produces the
`"hostel"` exclusion and a 4-star floor; `"Downtown Hostel"` with
`hotel_class` 4 is excluded even though the identical listing under a
different name passes, and any filter carrying the `"hostel"` exclusion also
rejects every listing whose name contains `"backpacker"`, `"dorm"` or
`"dormitory"`. -/
theorem hotel_name_exclusion_independent (hotel : HotelResult) (filters : HotelFilters)
    (hh : "hostel" ∈ filters.excludeTypes)
    (hname : containsLC "backpacker".data (lowerData hotel.name) = true ∨
             containsLC "dorm".data (lowerData hotel.name) = true ∨
             containsLC "dormitory".data (lowerData hotel.name) = true) :
    passesFilters hotel filters = false ∧
    (parsePreferences "no hostels, 4 star minimum").excludeTypes = ["hostel"] ∧
    (parsePreferences "no hostels, 4 star minimum").minStars = some 4 ∧
    passesFilters downtownHostel (parsePreferences "no hostels, 4 star minimum") = false ∧
    passesFilters downtownPlaza (parsePreferences "no hostels, 4 star minimum") = true := by
  refine ⟨?_, by decide, by decide, by decide, by decide⟩
  unfold passesFilters
  dsimp only
  have hany : filters.excludeTypes.any (fun t =>
      containsLC (lowerData t) (lowerData hotel.name) ||
      (t == "hostel" &&
        (containsLC "backpacker".data (lowerData hotel.name) ||
         containsLC "dormitory".data (lowerData hotel.name) ||
         containsLC "dorm".data (lowerData hotel.name)))) = true := by
    rw [List.any_eq_true]
    refine ⟨"hostel", hh, ?_⟩
    rcases hname with h | h | h <;> simp [h]
  rw [hany]
  rfl

/-- A well-starred listing whose name contains `"backpacker"`. -/
def c7backpacker : HotelResult :=
  { name := "City Backpacker Lodge", type := "hotel", hotel_class := some 5, price := 90 }

/-- **C7** (witness) — the hypotheses of `hotel_name_exclusion_independent`
hold for a `"City Backpacker Lodge"` listing under the parsed
`"no hostels, 4 star minimum"` filter. -/
theorem hotel_name_exclusion_independent_witness :
    ("hostel" ∈ (parsePreferences "no hostels, 4 star minimum").excludeTypes) ∧
    containsLC "backpacker".data (lowerData c7backpacker.name) = true ∧
    passesFilters c7backpacker (parsePreferences "no hostels, 4 star minimum") = false := by
  refine ⟨by decide, by decide, ?_⟩
  exact (hotel_name_exclusion_independent c7backpacker
    (parsePreferences "no hostels, 4 star minimum") (by decide) (Or.inl (by decide))).1

/-! ## C8: budget cap vs. luxury floor -/

/-- The filter state after the exclusion, star-bound and luxury rules, i.e.
just before the budget rule runs. -/
def preBudgetFilters (s : String) : HotelFilters :=
  applyLuxury (lowerData s) (applyStarPatterns (lowerData s) (applyExclusions (lowerData s) {}))

/-- **C8** (counterexample) — with `"0 star minimum cheap"` the star-bound
rule sets the minimum floor to `0` *before* the budget rule runs, yet the
budget rule still caps `maxStars` at 3 and sets the budget flag: the guard
`!filters.minStars` is a falsiness check, so a floor of `0` does not count as
"a minimum star floor was already set". -/
theorem budget_cap_despite_floor_counterexample :
    (applyStarPatterns (lowerData "0 star minimum cheap")
        (applyExclusions (lowerData "0 star minimum cheap") {})).minStars = some 0 ∧
    (parsePreferences "0 star minimum cheap").minStars = some 0 ∧
    (parsePreferences "0 star minimum cheap").maxStars = some 3 ∧
    (parsePreferences "0 star minimum cheap").preferBudget = true := by
  exact ⟨by decide, by decide, by decide, by decide⟩

/-- The luxury rule always leaves a floor of at least 4 behind. -/
theorem applyLuxury_minStars_ge (lower : List Char) (f : HotelFilters)
    (hl : patTest luxuryPat lower = true) :
    ∃ n, 4 ≤ n ∧ (applyLuxury lower f).minStars = some n := by
  unfold applyLuxury
  rw [hl]
  dsimp only
  rcases hm : f.minStars with - | m
  · exact ⟨4, by norm_num, by simp [natFalsy, hm]⟩
  · by_cases h4 : m < 4
    · exact ⟨4, by norm_num, by simp [natFalsy, hm, h4]⟩
    · refine ⟨m, by omega, ?_⟩
      have hz : (m == 0) = false := by
        simp only [beq_eq_false_iff_ne, ne_eq]
        omega
      simp [natFalsy, hm, hz, h4]

/-- **C8** (amended) — the budget rule caps `maxStars` at 3 (and sets the
budget flag) only when the minimum floor established by the earlier rules is
*falsy* — absent **or zero** — while a nonzero pre-existing floor suppresses
the cap entirely; the budget rule never touches `minStars`; and luxury intent
always leaves a final floor of at least 4 (raising an absent or below-4
floor to 4, keeping a floor of 4 or more). -/
theorem preference_budget_luxury (s : String) :
    (parsePreferences s).minStars = (preBudgetFilters s).minStars ∧
    (patTest luxuryPat (lowerData s) = true →
      ∃ n, 4 ≤ n ∧ (parsePreferences s).minStars = some n) ∧
    (patTest budgetPat (lowerData s) = true →
      natFalsy (preBudgetFilters s).minStars = true →
      (parsePreferences s).maxStars = some 3 ∧ (parsePreferences s).preferBudget = true) ∧
    (natFalsy (preBudgetFilters s).minStars = false →
      (parsePreferences s).maxStars = (preBudgetFilters s).maxStars ∧
      (parsePreferences s).preferBudget = (preBudgetFilters s).preferBudget) := by
  have hp : parsePreferences s = applyBudget (lowerData s) (preBudgetFilters s) := rfl
  have hmin : (parsePreferences s).minStars = (preBudgetFilters s).minStars := by
    rw [hp]
    unfold applyBudget
    split <;> rfl
  refine ⟨hmin, ?_, ?_, ?_⟩
  · intro hl
    rw [hmin]
    exact applyLuxury_minStars_ge (lowerData s) _ hl
  · intro hb hfal
    rw [hp]
    unfold applyBudget
    rw [hb, hfal]
    exact ⟨rfl, rfl⟩
  · intro hfal
    rw [hp]
    unfold applyBudget
    rw [hfal]
    simp

/-- **C8** (witness) — `"affordable stay"` triggers the budget rule with no
pre-existing floor: the cap and flag are set, as the amended theorem
predicts. -/
theorem preference_budget_luxury_witness :
    patTest budgetPat (lowerData "affordable stay") = true ∧
    natFalsy (preBudgetFilters "affordable stay").minStars = true ∧
    (parsePreferences "affordable stay").maxStars = some 3 ∧
    (parsePreferences "affordable stay").preferBudget = true := by
  refine ⟨by decide, by decide, ?_, ?_⟩
  · exact ((preference_budget_luxury "affordable stay").2.2.1 (by decide) (by decide)).1
  · exact ((preference_budget_luxury "affordable stay").2.2.1 (by decide) (by decide)).2

/-! ## C1: flight normalization — cap, order, stability -/

/-- **C1** — flight normalization emits at most 10 flights; the output is the
image of the first 10 itineraries of the stable sort by resolved price (so
the retained itineraries' resolved prices are all `≤` those of every dropped
itinerary, and the output is ordered ascending by resolved price); and any
two itineraries with equal resolved price keep their input order in the
sorted sequence the output is read off. -/
theorem processFlightData_cap_order_stability
    (data : FlightData) (currency : String) (a b : Itinerary)
    (hab : List.Sublist [a, b] data.itineraries)
    (heq : resolvedKey a = resolvedKey b) :
    (processFlightData data currency).length ≤ 10 ∧
    processFlightData data currency
      = ((sortedItineraries data).take 10).map (mkProcessedFlight data currency) ∧
    List.Pairwise itinLE (sortedItineraries data) ∧
    (∀ x ∈ (sortedItineraries data).take 10, ∀ y ∈ (sortedItineraries data).drop 10,
      resolvedKey x ≤ resolvedKey y) ∧
    List.Sublist [a, b] (sortedItineraries data) := by
  have hsorted : List.Pairwise itinLE (sortedItineraries data) :=
    List.sorted_insertionSort itinLE data.itineraries
  refine ⟨?_, rfl, hsorted, ?_, ?_⟩
  · unfold processFlightData
    rw [List.length_map]
    exact List.length_take_le _ _
  · intro x hx y hy
    have hsplit : (sortedItineraries data).take 10 ++ (sortedItineraries data).drop 10
        = sortedItineraries data := List.take_append_drop _ _
    have := (List.pairwise_append.mp (hsplit ▸ hsorted)).2.2
    exact this x hx y hy
  · refine List.sublist_insertionSort ?_ hab
    exact List.Pairwise.cons (fun y hy => by
      rcases List.mem_singleton.mp hy with rfl
      exact le_of_eq heq) (List.pairwise_singleton _ _)

/-- The C1 witness payload: three itineraries, the first two tied at price 7,
the third cheaper at 3. -/
def c1itinA : Itinerary := { id := "a", cheapest_price := some 7 }

/-- The second member of the C1 tie. -/
def c1itinB : Itinerary := { id := "b", cheapest_price := some 7 }

/-- The cheap third itinerary of the C1 witness. -/
def c1itinC : Itinerary := { id := "c", cheapest_price := some 3 }

/-- The C1 witness payload. -/
def c1data : FlightData := { itineraries := [c1itinA, c1itinB, c1itinC] }

/-- **C1** (witness) — on the C1 payload the tied itineraries `a`, `b` keep
their input order after `c` moves ahead of them, and the hypotheses of
`processFlightData_cap_order_stability` are satisfiable. -/
theorem processFlightData_cap_order_stability_witness :
    List.Sublist [c1itinA, c1itinB] c1data.itineraries ∧
    resolvedKey c1itinA = resolvedKey c1itinB ∧
    (sortedItineraries c1data).map Itinerary.id = ["c", "a", "b"] ∧
    List.Sublist [c1itinA, c1itinB] (sortedItineraries c1data) := by
  refine ⟨by decide, by decide, by decide, ?_⟩
  exact (processFlightData_cap_order_stability c1data "USD" c1itinA c1itinB
    (by decide) (by decide)).2.2.2.2

/-! ## C10: a zero cheapest price is treated as absent -/

/-- The C10 itinerary: both price sources carry an explicit `0`. -/
def c10zero : Itinerary :=
  { id := "zero", cheapest_price := some 0,
    pricing_options := [{ price_amount := some 0 }] }

/-- The C10 control itinerary, priced 5. -/
def c10paid : Itinerary := { id := "paid", cheapest_price := some 5 }

/-- The C10 payload: the zero-priced itinerary comes *first* in the input. -/
def c10data : FlightData := { itineraries := [c10zero, c10paid] }

/-- **C10** — the price-resolution expression coalesces on falsiness, so an
itinerary whose `cheapest_price.amount` and first pricing-option amount are
both `0` gets the `Infinity` (`⊤`) sort key — no key exceeds it, so it sorts
to the end rather than first — yet if it is still among the retained results
its output `price` field is `0`: concretely, input order `[zero, paid]`
becomes output order `[paid, zero]` with prices `[5, 0]`. -/
theorem flight_zero_price_sorts_last
    (itin : Itinerary) (data : FlightData) (currency : String)
    (h0 : itin.cheapest_price = some 0)
    (h1 : firstPricingAmount itin = some 0) :
    resolvedKey itin = ⊤ ∧
    (∀ y : Itinerary, resolvedKey y ≤ resolvedKey itin) ∧
    (mkProcessedFlight data currency itin).price = 0 ∧
    (sortedItineraries c10data).map Itinerary.id = ["paid", "zero"] ∧
    (processFlightData c10data "USD").map ProcessedFlight.price = [5, 0] := by
  have hkey : resolvedKey itin = ⊤ := by
    unfold resolvedKey
    rw [h0, h1]
    rfl
  refine ⟨hkey, fun y => hkey ▸ le_top, ?_, by decide, by decide⟩
  show outPrice itin = 0
  unfold outPrice
  rw [h0, h1]
  rfl

/-- **C10** (witness) — the hypotheses of `flight_zero_price_sorts_last`
hold at the C10 zero-priced itinerary. -/
theorem flight_zero_price_sorts_last_witness :
    c10zero.cheapest_price = some 0 ∧
    firstPricingAmount c10zero = some 0 ∧
    resolvedKey c10zero = ⊤ := by
  refine ⟨rfl, rfl, ?_⟩
  exact (flight_zero_price_sorts_last c10zero c10data "USD" rfl rfl).1
